import Mathlib

/-!
Shallow embedding of the Bylderr backend's investment-lifecycle and
query-builder logic, translated from the JavaScript sources:

* `controllers/investmentController.js` (`createInvestment`, `cancelInvestment`),
* `controllers/projectController.js` (`getProject`),
* `services/paymentService.js` (`processPayment`, `processRefund`),
* `middleware/auth.js` (`protect`, `authorize`),
* `utils/advancedResults.js` and `utils/helpers.js` (`paginateArray`).

Monetary amounts are modelled as rationals, timestamps as integers,
document ids as naturals, and the string-typed enums of the source
(statuses, roles, payment methods) as Lean strings, keeping the exact
literals of the JavaScript.  External calls (Stripe charge/refund, JWT
verification) are oracles passed in as arguments; each controller
operation returns its result together with the updated database state and
the list of payment-gateway calls it issued, so that "no side effect"
claims are provable statements rather than conventions.
-/

/-- `utils/errorResponse.js`: an error carrying a message and HTTP status. -/
structure ErrorResponse where
  message : String
  statusCode : Nat
deriving DecidableEq, Repr

/-- `models/User.js` investor profile fragment used by the controllers:
only the accreditation status is consulted. -/
structure InvestorProfile where
  accreditedStatus : String
deriving DecidableEq, Repr

/-- A user document, restricted to the fields the embedded operations read. -/
structure User where
  id : Nat
  role : String
  investorProfile : Option InvestorProfile
deriving DecidableEq, Repr

/-- A project document, restricted to the fields the embedded operations
read or write (`metrics.views` and `metrics.favorites` are flattened). -/
structure Project where
  id : Nat
  title : String
  owner : Nat
  status : String
  fundingGoal : ℚ
  fundingRaised : ℚ
  fundingDeadline : Int
  minInvestment : ℚ
  accreditedOnly : Bool
  views : Nat
  favorites : Int
deriving DecidableEq, Repr

/-- An investment document. `paymentId` is `none` when no payment was
recorded, matching a missing field in the document. -/
structure Investment where
  id : Nat
  investor : Nat
  project : Nat
  amount : ℚ
  paymentMethod : String
  paymentId : Option String
  transactionFee : ℚ
  status : String
deriving DecidableEq, Repr

/-- The persistence layer: the two collections the ledger logic touches. -/
structure DB where
  projects : List Project
  investments : List Investment
deriving DecidableEq, Repr

/-- `Model.findById` on the projects collection. -/
def findProject (db : DB) (id : Nat) : Option Project :=
  db.projects.find? (fun p => p.id == id)

/-- `Model.findById` on the investments collection. -/
def findInvestment (db : DB) (id : Nat) : Option Investment :=
  db.investments.find? (fun i => i.id == id)

/-- `project.save()`: write back a (possibly modified) project document. -/
def saveProject (db : DB) (p : Project) : DB :=
  { db with projects := db.projects.map (fun q => if q.id == p.id then p else q) }

/-- `investment.save()`: write back a (possibly modified) investment document. -/
def saveInvestment (db : DB) (i : Investment) : DB :=
  { db with investments := db.investments.map (fun j => if j.id == i.id then i else j) }

/-- A call issued to the payment gateway (`services/paymentService.js`),
recorded so that "the gateway is never invoked" is a provable statement. -/
inductive GatewayCall where
  | charge (amount : ℚ) (paymentMethod : String)
  | refundCall (paymentId : String) (amount : ℚ)
deriving DecidableEq, Repr

/-- Result of a Stripe `paymentIntents.create` call (the external oracle):
an intent id and a status string. -/
structure StripeIntent where
  intentId : String
  status : String
deriving DecidableEq, Repr

/-- Return value of `processPayment`. -/
structure PaymentResult where
  paymentId : String
  fee : ℚ
  status : String
deriving DecidableEq, Repr

/-- `services/paymentService.js` `processPayment`: branches on the payment
method; `credit_card` delegates to Stripe (the `stripe` oracle: `.error`
models a thrown exception), `bank_transfer` / `wire` / `crypto` always
return a `pending` status, anything else throws.  The 2% fee of the source
(`amount * 0.02`) is `amount * (2 / 100)`. -/
def processPayment (amount : ℚ) (paymentMethod : String)
    (stripe : Except String StripeIntent) (now : Int) :
    Except ErrorResponse PaymentResult :=
  let fee : ℚ := amount * (2 / 100)
  if paymentMethod == "credit_card" then
    match stripe with
    | .ok intent =>
        .ok { paymentId := intent.intentId, fee := fee,
              status := if intent.status == "succeeded" then "succeeded" else "pending" }
    | .error msg => .error ⟨"Payment failed: " ++ msg, 400⟩
  else if paymentMethod == "bank_transfer" then
    .ok { paymentId := "bank_" ++ toString now, fee := fee, status := "pending" }
  else if paymentMethod == "wire" then
    .ok { paymentId := "wire_" ++ toString now, fee := fee, status := "pending" }
  else if paymentMethod == "crypto" then
    .ok { paymentId := "crypto_" ++ toString now, fee := fee, status := "pending" }
  else
    .error ⟨"Unsupported payment method", 400⟩

/-- Character-level worker for `jsSplitSpace`, structurally recursive so
that it evaluates inside the kernel. -/
def splitChars : List Char → List Char → List String
  | [], acc => [String.mk acc.reverse]
  | c :: cs, acc =>
    if c = ' ' then String.mk acc.reverse :: splitChars cs []
    else splitChars cs (c :: acc)

/-- JavaScript `s.split(' ')`: split on every single space, keeping empty
components. -/
def jsSplitSpace (s : String) : List String := splitChars s.data []

/-- JavaScript `s.startsWith(t)`, as a structurally recursive check on the
character lists. -/
def strStartsWith (s t : String) : Bool := t.data.isPrefixOf s.data

/-- Result of a Stripe `refunds.create` call (the external oracle). -/
structure RefundResult where
  refundId : String
  status : String
deriving DecidableEq, Repr

/-- `services/paymentService.js` `processRefund`: Stripe refund for `pi_`
payment ids (the `stripeRefund` oracle; `.error` models a thrown
exception), synthetic pending refund for `bank_` / `wire_` / `crypto_`
ids, and an error for anything else. -/
def processRefund (paymentId : String) (amount : ℚ)
    (stripeRefund : Except String RefundResult) (now : Int) :
    Except ErrorResponse RefundResult :=
  if strStartsWith paymentId "pi_" then
    match stripeRefund with
    | .ok r => .ok r
    | .error msg => .error ⟨"Refund failed: " ++ msg, 400⟩
  else if strStartsWith paymentId "bank_" || strStartsWith paymentId "wire_"
      || strStartsWith paymentId "crypto_" then
    .ok { refundId := "refund_" ++ toString now, status := "pending" }
  else
    .error ⟨"Invalid payment ID", 400⟩

/-- `req.user.investorProfile && accreditedStatus === 'accredited'`. -/
def isAccredited (u : User) : Bool :=
  match u.investorProfile with
  | some p => p.accreditedStatus == "accredited"
  | none => false

/-- The completed investments of a project: the `$match` stage of the
funding aggregation in `createInvestment`. -/
def completedInvestments (invs : List Investment) (projectId : Nat) : List Investment :=
  invs.filter (fun i => i.project == projectId && i.status == "completed")

/-- The `$group`/`$sum` stage: total amount of the matched investments. -/
def completedTotal (invs : List Investment) (projectId : Nat) : ℚ :=
  (completedInvestments invs projectId).foldl (fun acc i => acc + i.amount) 0

/-- Modelled from the spec: the default `status` of a newly created
Investment document.  The Mongoose model file `models/Investment.js` is
not among the sources (only the controllers that use it are); the spec
states that an investment not marked completed is "created with
status = pending". -/
def investmentDefaultStatus : String := "pending"

/-- Outcome of a controller operation: the handler result, the database
after the operation, and the payment-gateway calls issued. -/
structure CreateOut where
  result : Except ErrorResponse Investment
  db : DB
  calls : List GatewayCall
deriving Repr

/-- `controllers/investmentController.js` `createInvestment`, embedded
step for step: the five precondition checks in source order, the payment
call (wrapped in try/catch), the `Investment.create`, the aggregation
recomputing `fundingRaised` (applied only when the aggregation result is
non-empty, as in the source's `if (totalFunded.length > 0)`), the
funded-goal check, and the final `project.save()`. -/
def createInvestment (db : DB) (now : Int) (user : User) (projectId : Nat)
    (amount : ℚ) (paymentMethod : String) (stripe : Except String StripeIntent)
    (newId : Nat) : CreateOut :=
  match findProject db projectId with
  | none =>
      { result := .error ⟨"Project not found with id of " ++ toString projectId, 404⟩,
        db := db, calls := [] }
  | some project =>
    if project.status != "active" then
      { result := .error ⟨"Project is not currently accepting investments", 400⟩,
        db := db, calls := [] }
    else if now > project.fundingDeadline then
      { result := .error ⟨"Funding deadline has passed", 400⟩, db := db, calls := [] }
    else if amount < project.minInvestment then
      { result := .error ⟨"Minimum investment amount is " ++ toString project.minInvestment, 400⟩,
        db := db, calls := [] }
    else if project.accreditedOnly && !(isAccredited user) then
      { result := .error ⟨"This project is only available to accredited investors", 403⟩,
        db := db, calls := [] }
    else
      match processPayment amount paymentMethod stripe now with
      | .error err =>
          { result := .error ⟨"Payment processing failed: " ++ err.message, 400⟩,
            db := db, calls := [.charge amount paymentMethod] }
      | .ok paymentResult =>
        let investment : Investment :=
          { id := newId, investor := user.id, project := projectId,
            amount := amount, paymentMethod := paymentMethod,
            paymentId := some paymentResult.paymentId,
            transactionFee := paymentResult.fee,
            status := if paymentResult.status == "succeeded" then "completed"
                      else investmentDefaultStatus }
        let invs := db.investments ++ [investment]
        let raised :=
          if completedInvestments invs projectId ≠ [] then
            completedTotal invs projectId
          else project.fundingRaised
        let project' :=
          { project with
              fundingRaised := raised,
              status := if raised ≥ project.fundingGoal then "funded" else project.status }
        { result := .ok investment,
          db := saveProject { db with investments := invs } project',
          calls := [.charge amount paymentMethod] }

/-- Outcome of `cancelInvestment`. -/
structure CancelOut where
  result : Except ErrorResponse Investment
  db : DB
  calls : List GatewayCall
deriving Repr

/-- `controllers/investmentController.js` `cancelInvestment`, embedded
step for step: not-found check, owner-or-admin check, pending-only check,
the refund (only when a `paymentId` exists, aborting on failure before
any write), then the status write and the incremental
`project.fundingRaised -= investment.amount` of the source.  The source
dereferences the looked-up project without a null check; a missing
project surfaces as the generic 500 of the error boundary. -/
def cancelInvestment (db : DB) (requester : User) (investmentId : Nat)
    (stripeRefund : Except String RefundResult) (now : Int) : CancelOut :=
  match findInvestment db investmentId with
  | none =>
      { result := .error ⟨"Investment not found with id of " ++ toString investmentId, 404⟩,
        db := db, calls := [] }
  | some investment =>
    if investment.investor != requester.id && requester.role != "admin" then
      { result := .error ⟨"User " ++ toString requester.id
          ++ " is not authorized to cancel this investment", 403⟩,
        db := db, calls := [] }
    else if investment.status != "pending" then
      { result := .error ⟨"Only pending investments can be cancelled", 400⟩,
        db := db, calls := [] }
    else
      let afterRefund : List GatewayCall → CancelOut := fun calls =>
        let investment' := { investment with status := "cancelled" }
        let db1 := saveInvestment db investment'
        match findProject db1 investment.project with
        | none =>
            { result := .error ⟨"Cannot read properties of null", 500⟩,
              db := db1, calls := calls }
        | some project =>
            let project' := { project with fundingRaised := project.fundingRaised - investment.amount }
            { result := .ok investment', db := saveProject db1 project', calls := calls }
      match investment.paymentId with
      | some pid =>
          match processRefund pid investment.amount stripeRefund now with
          | .error err =>
              { result := .error ⟨"Refund processing failed: " ++ err.message, 400⟩,
                db := db, calls := [.refundCall pid investment.amount] }
          | .ok _ => afterRefund [.refundCall pid investment.amount]
      | none => afterRefund []

/-- Outcome of `getProject`. -/
structure GetOut where
  result : Except ErrorResponse Project
  db : DB
deriving Repr

/-- `controllers/projectController.js` `getProject`: look up the project,
404 when absent, otherwise increment `metrics.views`, save, and return
the (incremented) project. -/
def getProject (db : DB) (id : Nat) : GetOut :=
  match findProject db id with
  | none =>
      { result := .error ⟨"Project not found with id of " ++ toString id, 404⟩, db := db }
  | some project =>
      let project' := { project with views := project.views + 1 }
      { result := .ok project', db := saveProject db project' }

/-- `middleware/auth.js` `protect`, token extraction: the header must
start with `Bearer`, the token is `header.split(' ')[1]`; an absent
second component or the empty string is falsy in the source's
`if (!token)` check. -/
def extractToken (authorization : Option String) : Option String :=
  match authorization with
  | some h =>
    if strStartsWith h "Bearer" then
      match (jsSplitSpace h).get? 1 with
      | some t => if t == "" then none else some t
      | none => none
    else none
  | none => none

/-- `middleware/auth.js` `protect`: missing token and failed verification
(the `jwtVerify` oracle returning `none` models a thrown
`JsonWebTokenError`/`TokenExpiredError`) give 401; a verified token whose
decoded id matches no user gives the source's 404 `User not found`. -/
def protect (users : List User) (secret : String)
    (jwtVerify : String → String → Option Nat) (authorization : Option String) :
    Except ErrorResponse User :=
  match extractToken authorization with
  | none => .error ⟨"Not authorized to access this route", 401⟩
  | some token =>
    match jwtVerify token secret with
    | none => .error ⟨"Not authorized to access this route", 401⟩
    | some uid =>
      match users.find? (fun u => u.id == uid) with
      | none => .error ⟨"User not found", 404⟩
      | some u => .ok u

/-- `middleware/auth.js` `authorize(...roles)`: reject with 403 when the
authenticated user's role is not in the allow-list. -/
def authorize (roles : List String) (u : User) : Except ErrorResponse Unit :=
  if u.role ∈ roles then .ok ()
  else .error ⟨"User role " ++ u.role ++ " is not authorized to access this route", 403⟩

/-- A scalar value stored in a document field. -/
inductive DVal where
  | num (q : ℚ)
  | str (s : String)
deriving DecidableEq, Repr

/-- A document, as an association list of named scalar fields. -/
def Doc := List (String × DVal)
deriving instance DecidableEq, Repr for Doc

/-- Field lookup on a document. -/
def getField (d : Doc) (k : String) : Option DVal :=
  (d.find? (fun kv => kv.fst == k)).map Prod.snd

/-- A single operator argument: a scalar, or a list (as used by `in`). -/
inductive OpArg where
  | one (v : DVal)
  | many (vs : List DVal)
deriving DecidableEq, Repr

/-- A query condition on one field: either a plain value (equality match)
or a nested object of operator-style entries, as produced by parsing
`?field[gt]=100` style query strings. -/
inductive QVal where
  | scalar (v : DVal)
  | obj (entries : List (String × OpArg))
deriving DecidableEq, Repr

/-- A parsed request query, as an association list. -/
def Query := List (String × QVal)
deriving instance DecidableEq, Repr for Query

/-- MongoDB operator semantics for a single `$`-prefixed operator applied
to a stored scalar. -/
def applyOp (op : String) (arg : OpArg) (v : DVal) : Bool :=
  match op, arg, v with
  | "$gt", .one (.num a), .num x => x > a
  | "$gte", .one (.num a), .num x => x ≥ a
  | "$lt", .one (.num a), .num x => x < a
  | "$lte", .one (.num a), .num x => x ≤ a
  | "$in", .many vs, x => vs.contains x
  | _, _, _ => false

/-- MongoDB match semantics of one field condition against a document:
a scalar condition is an equality match; a nested object whose keys all
start with `$` is an operator expression; a nested object with any
non-`$` key is an embedded-document equality match, which a scalar field
never satisfies. -/
def matchCond (stored : Option DVal) (cond : QVal) : Bool :=
  match cond with
  | .scalar v => stored == some v
  | .obj entries =>
    if entries.all (fun e => strStartsWith e.fst "$") then
      entries.all (fun e =>
        match stored with
        | some x => applyOp e.fst e.snd x
        | none => false)
    else
      false

/-- `model.find(filter)`: keep the documents every condition matches. -/
def filterDocs (q : Query) (docs : List Doc) : List Doc :=
  docs.filter (fun d => q.all (fun kv => matchCond (getField d kv.fst) kv.snd))

/-- `utils/advancedResults.js`: the fields excluded from filtering. -/
def removeFields : List String := ["select", "sort", "page", "limit"]

/-- The operator words matched by the source's regex
`/\b(gt|gte|lt|lte|in)\b/g`. -/
def opNames : List String := ["gt", "gte", "lt", "lte", "in"]

/-- The replacement callback of the source's
`queryStr.replace(/\b(gt|gte|lt|lte|in)\b/g, match => ` + "`${match}`" + `)`:
it returns the matched word unchanged. -/
def opReplace (m : String) : String := m

/-- Apply the regex replacement to one JSON key. -/
def translateKey (k : String) : String :=
  if k ∈ opNames then opReplace k else k

/-- Apply the regex replacement to the nested operator keys of one
condition. -/
def translateCond : QVal → QVal
  | .scalar v => .scalar v
  | .obj entries => .obj (entries.map (fun e => (translateKey e.fst, e.snd)))

/-- The filter-construction part of `utils/advancedResults.js`: drop the
excluded parameters, then run the stringify/replace/parse step over the
remaining keys. -/
def translateQuery (q : Query) : Query :=
  (q.filter (fun kv => !(removeFields.contains kv.fst))).map
    (fun kv => (translateKey kv.fst, translateCond kv.snd))

/-- `advancedResults`, filtering stage: translate the request query and
run the find. -/
def advancedFilter (reqQuery : Query) (docs : List Doc) : List Doc :=
  filterDocs (translateQuery reqQuery) docs

/-- Modelled from the spec: the operator translation the spec describes
("applies them as the corresponding comparison operators"), i.e. the
word is rewritten to the `$`-prefixed MongoDB operator.  Stated only to
compare the source's behaviour against the spec's words. -/
def specOpReplace (m : String) : String := "$" ++ m

/-- Modelled from the spec: `translateQuery` with the spec's operator
rewriting in place of the source's identity replacement. -/
def specTranslateQuery (q : Query) : Query :=
  (q.filter (fun kv => !(removeFields.contains kv.fst))).map
    (fun kv =>
      (kv.fst,
       match kv.snd with
       | .scalar v => .scalar v
       | .obj entries =>
           .obj (entries.map (fun e =>
             (if e.fst ∈ opNames then specOpReplace e.fst else e.fst, e.snd)))))

/-- Modelled from the spec: the filtering stage with the spec's operator
rewriting. -/
def specAdvancedFilter (reqQuery : Query) (docs : List Doc) : List Doc :=
  filterDocs (specTranslateQuery reqQuery) docs

/-- A `next`/`prev` page descriptor. -/
structure PageRef where
  page : Nat
  limit : Nat
deriving DecidableEq, Repr

/-- The `pagination` object of the response envelope. -/
structure Pagination where
  next : Option PageRef
  prev : Option PageRef
deriving DecidableEq, Repr

/-- The response envelope built by `advancedResults`. -/
structure Envelope where
  success : Bool
  count : Nat
  pagination : Pagination
  data : List Doc
deriving DecidableEq, Repr

/-- `utils/advancedResults.js`, pagination and envelope stage, applied to
the already-filtered-and-sorted matching documents: `startIndex`,
`endIndex`, `total = countDocuments`, `skip/limit`, the conditional
`next`/`prev` descriptors, and the `{success, count, pagination, data}`
envelope. -/
def advancedResultsEnvelope (docs : List Doc) (page limit : Nat) : Envelope :=
  let startIndex := (page - 1) * limit
  let endIndex := page * limit
  let total := docs.length
  let results := (docs.drop startIndex).take limit
  { success := true,
    count := results.length,
    pagination :=
      { next := if endIndex < total then some ⟨page + 1, limit⟩ else none,
        prev := if startIndex > 0 then some ⟨page - 1, limit⟩ else none },
    data := results }

/-- `utils/helpers.js` `paginateArray` result shape. -/
structure PaginateResult (α : Type) where
  page : Nat
  perPage : Nat
  total : Nat
  totalPages : Nat
  data : List α
deriving DecidableEq, Repr

/-- `utils/helpers.js` `paginateArray`: `offset = perPage * (page - 1)`,
`totalPages = Math.ceil(items.length / perPage)` (natural ceiling
division), `items.slice(offset, perPage * page)`. -/
def paginateArray (items : List α) (page : Nat) (perPage : Nat) : PaginateResult α :=
  let offset := perPage * (page - 1)
  { page := page,
    perPage := perPage,
    total := items.length,
    totalPages := (items.length + perPage - 1) / perPage,
    data := (items.drop offset).take (perPage * page - offset) }

/-! ## Helper lemmas -/

/-- After saving a document `p'` whose id equals the id of the document
`p` that a lookup found, the same lookup finds `p'`. -/
theorem find?_map_save (ps : List Project) (pid : Nat) (p p' : Project)
    (hfind : ps.find? (fun q => q.id == pid) = some p) (hid : p'.id = p.id) :
    (ps.map (fun q => if q.id == p'.id then p' else q)).find? (fun q => q.id == pid) = some p' := by
  have hpid : p.id = pid := by
    have := List.find?_some hfind
    simpa using this
  induction ps with
  | nil => simp at hfind
  | cons a as ih =>
    by_cases ha : a.id = pid
    · have hpa : p = a := by
        rw [List.find?_cons_of_pos _ (by simp [ha])] at hfind
        exact (Option.some.inj hfind).symm
      subst hpa
      simp [hid, hpid, ha]
    · rw [List.find?_cons_of_neg] at hfind
      · have hne : a.id ≠ p'.id := by rw [hid, hpid]; exact ha
        simp only [List.map_cons]
        rw [if_neg (by simp [hne])]
        rw [List.find?_cons_of_neg]
        · exact ih hfind
        · simp [ha]
      · simp [ha]

/-! ## Claim theorems -/

/-- C1: the claim states that after any sequence of `createInvestment` and
`cancelInvestment` operations, `Project.fundingRaised` equals the sum of
the amounts of the project's completed investments.  The code violates
this: starting from a consistent state (`fundingRaised = 0`, no
investments), creating a `bank_transfer` investment of 100 (persisted
with status `pending`, so never counted) and then cancelling it makes
`cancelInvestment` decrement `fundingRaised` to `-100`, while the sum
over completed investments is `0`. -/
theorem c1_fundingRaised_invariant_violated :
    (createInvestment ⟨[⟨1, "p", 5, "active", 10000, 0, 100, 10, false, 0, 0⟩], []⟩
        0 ⟨2, "investor", none⟩ 1 100 "bank_transfer" (.error "e") 7).result =
      .ok ⟨7, 2, 1, 100, "bank_transfer", some "bank_0", 100 * (2 / 100), "pending"⟩ ∧
    (cancelInvestment
        (createInvestment ⟨[⟨1, "p", 5, "active", 10000, 0, 100, 10, false, 0, 0⟩], []⟩
          0 ⟨2, "investor", none⟩ 1 100 "bank_transfer" (.error "e") 7).db
        ⟨2, "investor", none⟩ 7 (.error "e") 1).result =
      .ok ⟨7, 2, 1, 100, "bank_transfer", some "bank_0", 100 * (2 / 100), "cancelled"⟩ ∧
    (findProject
        (cancelInvestment
          (createInvestment ⟨[⟨1, "p", 5, "active", 10000, 0, 100, 10, false, 0, 0⟩], []⟩
            0 ⟨2, "investor", none⟩ 1 100 "bank_transfer" (.error "e") 7).db
          ⟨2, "investor", none⟩ 7 (.error "e") 1).db 1).map Project.fundingRaised =
      some ((0 : ℚ) - 100) ∧
    completedTotal
      (cancelInvestment
        (createInvestment ⟨[⟨1, "p", 5, "active", 10000, 0, 100, 10, false, 0, 0⟩], []⟩
          0 ⟨2, "investor", none⟩ 1 100 "bank_transfer" (.error "e") 7).db
        ⟨2, "investor", none⟩ 7 (.error "e") 1).db.investments 1 = 0 ∧
    ((0 : ℚ) - 100 = -100) ∧ ((-100 : ℚ) ≠ 0) := by
  exact ⟨rfl, rfl, rfl, rfl, by norm_num, by norm_num⟩

/-- C4 counterexample: the claim states that after every successful
`createInvestment` the project's `fundingRaised` is recomputed as the sum
of the completed investments' amounts.  On a project whose stored
`fundingRaised` is 50 while it has no completed investments, creating a
`bank_transfer` investment (status `pending`) succeeds, yet
`fundingRaised` stays 50 instead of the recomputed sum 0: the source only
overwrites `fundingRaised` when the aggregation result is non-empty. -/
theorem c4_create_not_always_recomputed :
    (createInvestment ⟨[⟨1, "p", 5, "active", 10000, 50, 100, 10, false, 0, 0⟩], []⟩
        0 ⟨2, "investor", none⟩ 1 100 "bank_transfer" (.error "e") 7).result =
      .ok ⟨7, 2, 1, 100, "bank_transfer", some "bank_0", 100 * (2 / 100), "pending"⟩ ∧
    (findProject
        (createInvestment ⟨[⟨1, "p", 5, "active", 10000, 50, 100, 10, false, 0, 0⟩], []⟩
          0 ⟨2, "investor", none⟩ 1 100 "bank_transfer" (.error "e") 7).db 1).map
      Project.fundingRaised = some 50 ∧
    completedTotal
      (createInvestment ⟨[⟨1, "p", 5, "active", 10000, 50, 100, 10, false, 0, 0⟩], []⟩
        0 ⟨2, "investor", none⟩ 1 100 "bank_transfer" (.error "e") 7).db.investments 1 = 0 ∧
    ((50 : ℚ) ≠ 0) := by
  exact ⟨rfl, rfl, rfl, by norm_num⟩

/-- C7: the claim states the query builder applies `gt`/`gte`/`lt`/`lte`/`in`
parameters as the corresponding comparison operators.  The source's
replacement callback returns the matched operator word unchanged (no `$`
prefix is added), so the parsed filter keeps the bare `gt` key, MongoDB
treats `{gt: 100}` as an embedded-document equality match, and a numeric
field never matches: filtering `amount[gt]=100` over documents with
`amount = 5` and `amount = 500` returns nothing, where the spec's
translation (`$gt`) would return the `amount = 500` document.  The
excluded parameters are dropped as claimed, but no comparison operator is
ever applied. -/
theorem c7_comparison_operators_not_applied :
    opReplace "gt" = "gt" ∧ opReplace "gte" = "gte" ∧ opReplace "lt" = "lt" ∧
    opReplace "lte" = "lte" ∧ opReplace "in" = "in" ∧
    translateQuery [("amount", .obj [("gt", .one (.num 100))])] =
      [("amount", .obj [("gt", .one (.num 100))])] ∧
    advancedFilter [("amount", .obj [("gt", .one (.num 100))])]
      [[("amount", .num 5)], [("amount", .num 500)]] = [] ∧
    specAdvancedFilter [("amount", .obj [("gt", .one (.num 100))])]
      [[("amount", .num 5)], [("amount", .num 500)]] = [[("amount", .num 500)]] := by
  exact ⟨rfl, rfl, rfl, rfl, rfl, rfl, rfl, rfl⟩

/-- The minimum-investment error message always begins with `M`, whatever
amount is rendered into it. -/
theorem minMsg_head (x : String) :
    ("Minimum investment amount is " ++ x : String).data.head? = some 'M' := rfl

/-- C2: every `createInvestment` precondition failure — project missing,
project not active, deadline passed, amount below the minimum, or
accredited-only project with a non-accredited investor — rejects with its
own distinct error, the checks run in that order (each case below assumes
the earlier checks passed), the database is unchanged (no Investment is
persisted) and the payment gateway is never invoked (`calls = []`). -/
theorem c2_createInvestment_rejections
    (db : DB) (now : Int) (user : User) (projectId : Nat) (amount : ℚ)
    (paymentMethod : String) (stripe : Except String StripeIntent) (newId : Nat) :
    (findProject db projectId = none →
      createInvestment db now user projectId amount paymentMethod stripe newId =
        ⟨.error ⟨"Project not found with id of " ++ toString projectId, 404⟩, db, []⟩) ∧
    (∀ p, findProject db projectId = some p → p.status ≠ "active" →
      createInvestment db now user projectId amount paymentMethod stripe newId =
        ⟨.error ⟨"Project is not currently accepting investments", 400⟩, db, []⟩) ∧
    (∀ p, findProject db projectId = some p → p.status = "active" →
      now > p.fundingDeadline →
      createInvestment db now user projectId amount paymentMethod stripe newId =
        ⟨.error ⟨"Funding deadline has passed", 400⟩, db, []⟩) ∧
    (∀ p, findProject db projectId = some p → p.status = "active" →
      ¬ now > p.fundingDeadline → amount < p.minInvestment →
      createInvestment db now user projectId amount paymentMethod stripe newId =
        ⟨.error ⟨"Minimum investment amount is " ++ toString p.minInvestment, 400⟩, db, []⟩) ∧
    (∀ p, findProject db projectId = some p → p.status = "active" →
      ¬ now > p.fundingDeadline → ¬ amount < p.minInvestment →
      p.accreditedOnly = true → isAccredited user = false →
      createInvestment db now user projectId amount paymentMethod stripe newId =
        ⟨.error ⟨"This project is only available to accredited investors", 403⟩, db, []⟩) ∧
    (∀ pid : Nat, ∀ m : ℚ,
      (⟨"Project not found with id of " ++ toString pid, 404⟩ : ErrorResponse) ≠
        ⟨"Project is not currently accepting investments", 400⟩ ∧
      (⟨"Project not found with id of " ++ toString pid, 404⟩ : ErrorResponse) ≠
        ⟨"Funding deadline has passed", 400⟩ ∧
      (⟨"Project not found with id of " ++ toString pid, 404⟩ : ErrorResponse) ≠
        ⟨"Minimum investment amount is " ++ toString m, 400⟩ ∧
      (⟨"Project not found with id of " ++ toString pid, 404⟩ : ErrorResponse) ≠
        ⟨"This project is only available to accredited investors", 403⟩ ∧
      (⟨"Project is not currently accepting investments", 400⟩ : ErrorResponse) ≠
        ⟨"Funding deadline has passed", 400⟩ ∧
      (⟨"Project is not currently accepting investments", 400⟩ : ErrorResponse) ≠
        ⟨"Minimum investment amount is " ++ toString m, 400⟩ ∧
      (⟨"Project is not currently accepting investments", 400⟩ : ErrorResponse) ≠
        ⟨"This project is only available to accredited investors", 403⟩ ∧
      (⟨"Funding deadline has passed", 400⟩ : ErrorResponse) ≠
        ⟨"Minimum investment amount is " ++ toString m, 400⟩ ∧
      (⟨"Funding deadline has passed", 400⟩ : ErrorResponse) ≠
        ⟨"This project is only available to accredited investors", 403⟩ ∧
      (⟨"Minimum investment amount is " ++ toString m, 400⟩ : ErrorResponse) ≠
        ⟨"This project is only available to accredited investors", 403⟩) := by
  refine ⟨?_, ?_, ?_, ?_, ?_, ?_⟩
  · intro h
    unfold createInvestment
    rw [h]
  · intro p hp hs
    unfold createInvestment
    rw [hp]
    simp [hs]
  · intro p hp hs hd
    unfold createInvestment
    rw [hp]
    simp [hs, hd]
  · intro p hp hs hd hm
    unfold createInvestment
    rw [hp]
    simp [hs, hd, hm]
  · intro p hp hs hd hm hacc hna
    unfold createInvestment
    rw [hp]
    simp [hs, hd, hm, hacc, hna]
  · intro pid m
    refine ⟨by simp, by simp, by simp, by simp, by decide, ?_, by simp, ?_, by decide, by simp⟩
    · intro he
      have ht := congrArg (fun e => e.message.data.head?) he
      dsimp only at ht
      rw [minMsg_head (toString m)] at ht
      exact absurd ht (by decide)
    · intro he
      have ht := congrArg (fun e => e.message.data.head?) he
      dsimp only at ht
      rw [minMsg_head (toString m)] at ht
      exact absurd ht (by decide)

/-- C2 witness: on an empty database the project lookup fails and the
call is rejected with the 404 error, no state change and no gateway
call. -/
theorem c2_witness :
    createInvestment ⟨[], []⟩ 0 ⟨2, "investor", none⟩ 1 100 "bank_transfer" (.error "e") 7 =
      ⟨.error ⟨"Project not found with id of " ++ toString 1, 404⟩, ⟨[], []⟩, []⟩ :=
  (c2_createInvestment_rejections ⟨[], []⟩ 0 ⟨2, "investor", none⟩ 1 100
    "bank_transfer" (.error "e") 7).1 rfl

/-- C3: `cancelInvestment` rejects a missing investment (404), a
requester who is neither the investment's investor nor an admin (403),
and a non-pending investment (400), each with the database unchanged and
no gateway call; when the (pending, authorized) investment carries a
payment identifier, a refund for the full investment amount is the one
gateway call issued, and a refund failure aborts the cancellation with
the database unchanged — the investment, being pending before, is still
pending. -/
theorem c3_cancelInvestment_guards
    (db : DB) (requester : User) (investmentId : Nat)
    (stripeRefund : Except String RefundResult) (now : Int) :
    (findInvestment db investmentId = none →
      cancelInvestment db requester investmentId stripeRefund now =
        ⟨.error ⟨"Investment not found with id of " ++ toString investmentId, 404⟩, db, []⟩) ∧
    (∀ inv, findInvestment db investmentId = some inv →
      inv.investor ≠ requester.id → requester.role ≠ "admin" →
      cancelInvestment db requester investmentId stripeRefund now =
        ⟨.error ⟨"User " ++ toString requester.id
          ++ " is not authorized to cancel this investment", 403⟩, db, []⟩) ∧
    (∀ inv, findInvestment db investmentId = some inv →
      (inv.investor = requester.id ∨ requester.role = "admin") →
      inv.status ≠ "pending" →
      cancelInvestment db requester investmentId stripeRefund now =
        ⟨.error ⟨"Only pending investments can be cancelled", 400⟩, db, []⟩) ∧
    (∀ inv pid, findInvestment db investmentId = some inv →
      (inv.investor = requester.id ∨ requester.role = "admin") →
      inv.status = "pending" → inv.paymentId = some pid →
      (cancelInvestment db requester investmentId stripeRefund now).calls =
        [.refundCall pid inv.amount] ∧
      (∀ e, processRefund pid inv.amount stripeRefund now = .error e →
        cancelInvestment db requester investmentId stripeRefund now =
          ⟨.error ⟨"Refund processing failed: " ++ e.message, 400⟩, db,
            [.refundCall pid inv.amount]⟩)) := by
  refine ⟨?_, ?_, ?_, ?_⟩
  · intro h
    unfold cancelInvestment
    rw [h]
  · intro inv hf hinv hrole
    unfold cancelInvestment
    rw [hf]
    simp [hinv, hrole]
  · intro inv hf hauth hs
    unfold cancelInvestment
    rw [hf]
    rcases hauth with h | h <;> simp [h, hs]
  · intro inv pid hf hauth hs hpid
    constructor
    · unfold cancelInvestment
      rw [hf]
      cases hpr : processRefund pid inv.amount stripeRefund now with
      | error e => rcases hauth with h | h <;> simp [h, hs, hpid, hpr]
      | ok r =>
        rcases hauth with h | h <;> simp [h, hs, hpid, hpr] <;> split <;> rfl
    · intro e hpr
      unfold cancelInvestment
      rw [hf]
      rcases hauth with h | h <;> simp [h, hs, hpid, hpr]

/-- C3 witness: cancelling an id absent from an empty database yields the
404 error with no state change and no gateway call. -/
theorem c3_witness :
    cancelInvestment ⟨[], []⟩ ⟨2, "investor", none⟩ 9 (.error "e") 0 =
      ⟨.error ⟨"Investment not found with id of " ++ toString 9, 404⟩, ⟨[], []⟩, []⟩ :=
  (c3_cancelInvestment_guards ⟨[], []⟩ ⟨2, "investor", none⟩ 9 (.error "e") 0).1 rfl

/-- C4 (amended): after every successful `createInvestment`, when the
project has at least one completed investment after the insert,
`fundingRaised` is recomputed from source as the completed sum (not
incrementally added); when it has none, `fundingRaised` is left at its
previous stored value (this is the amendment: the source skips the
overwrite on an empty aggregation result); if the resulting total reaches
`fundingGoal`, the project's status becomes `funded`, otherwise it is
unchanged.  The claim's concrete example holds: on an active project with
goal 10000 and minimum 100, a 10000 credit-card investment whose charge
synchronously succeeds yields a completed investment, `fundingRaised`
10000 and status `funded`. -/
theorem c4_fundingRaised_recompute_amended
    (db : DB) (now : Int) (user : User) (projectId : Nat) (amount : ℚ)
    (paymentMethod : String) (stripe : Except String StripeIntent) (newId : Nat)
    (p : Project) (inv : Investment)
    (hp : findProject db projectId = some p)
    (hok : (createInvestment db now user projectId amount paymentMethod stripe newId).result
      = .ok inv) :
    (∃ p', findProject
        (createInvestment db now user projectId amount paymentMethod stripe newId).db
        projectId = some p' ∧
      (createInvestment db now user projectId amount paymentMethod stripe newId).db.investments
        = db.investments ++ [inv] ∧
      (completedInvestments (db.investments ++ [inv]) projectId ≠ [] →
        p'.fundingRaised = completedTotal (db.investments ++ [inv]) projectId) ∧
      (completedInvestments (db.investments ++ [inv]) projectId = [] →
        p'.fundingRaised = p.fundingRaised) ∧
      (p'.fundingRaised ≥ p.fundingGoal → p'.status = "funded") ∧
      (¬ p'.fundingRaised ≥ p.fundingGoal → p'.status = p.status)) ∧
    (createInvestment ⟨[⟨1, "p", 5, "active", 10000, 0, 100, 100, false, 0, 0⟩], []⟩
        0 ⟨2, "investor", none⟩ 1 10000 "credit_card" (.ok ⟨"pi_1", "succeeded"⟩) 7).result =
      .ok ⟨7, 2, 1, 10000, "credit_card", some "pi_1", 10000 * (2 / 100), "completed"⟩ ∧
    (findProject
        (createInvestment ⟨[⟨1, "p", 5, "active", 10000, 0, 100, 100, false, 0, 0⟩], []⟩
          0 ⟨2, "investor", none⟩ 1 10000 "credit_card" (.ok ⟨"pi_1", "succeeded"⟩) 7).db
        1).map Project.fundingRaised = some 10000 ∧
    (findProject
        (createInvestment ⟨[⟨1, "p", 5, "active", 10000, 0, 100, 100, false, 0, 0⟩], []⟩
          0 ⟨2, "investor", none⟩ 1 10000 "credit_card" (.ok ⟨"pi_1", "succeeded"⟩) 7).db
        1).map Project.status = some "funded" := by
  refine ⟨?_, rfl, ?_, ?_⟩
  · unfold createInvestment at hok ⊢
    simp only [hp] at hok ⊢
    split at hok
    next h => exact absurd hok (by simp)
    next h1 =>
    rw [if_neg h1]
    split at hok
    next h => exact absurd hok (by simp)
    next h2 =>
    rw [if_neg h2]
    split at hok
    next h => exact absurd hok (by simp)
    next h3 =>
    rw [if_neg h3]
    split at hok
    next h => exact absurd hok (by simp)
    next h4 =>
    rw [if_neg h4]
    split at hok
    next err heq => exact absurd hok (by simp)
    next pr heq =>
    simp only [Except.ok.injEq] at hok
    subst hok
    refine ⟨_, find?_map_save db.projects projectId p _ hp rfl, rfl, ?_, ?_, ?_, ?_⟩
    · intro hne
      show (if completedInvestments (db.investments ++ [_]) projectId ≠ [] then _ else _) = _
      rw [if_pos hne]
    · intro hemp
      show (if completedInvestments (db.investments ++ [_]) projectId ≠ [] then _ else _) = _
      rw [if_neg (fun hcon => hcon hemp)]
    · intro hge
      show (if _ ≥ p.fundingGoal then "funded" else p.status) = "funded"
      rw [if_pos hge]
    · intro hlt
      show (if _ ≥ p.fundingGoal then "funded" else p.status) = p.status
      rw [if_neg hlt]
  · have h2 : (findProject
        (createInvestment ⟨[⟨1, "p", 5, "active", 10000, 0, 100, 100, false, 0, 0⟩], []⟩
          0 ⟨2, "investor", none⟩ 1 10000 "credit_card" (.ok ⟨"pi_1", "succeeded"⟩) 7).db
        1).map Project.fundingRaised = some ((0 : ℚ) + 10000) := rfl
    simpa using h2
  · have h3 : (findProject
        (createInvestment ⟨[⟨1, "p", 5, "active", 10000, 0, 100, 100, false, 0, 0⟩], []⟩
          0 ⟨2, "investor", none⟩ 1 10000 "credit_card" (.ok ⟨"pi_1", "succeeded"⟩) 7).db
        1).map Project.status =
        some (if ((0 : ℚ) + 10000) ≥ 10000 then "funded" else "active") := rfl
    rw [if_pos (by norm_num)] at h3
    exact h3

/-- C4 witness: the amended theorem applied to the claim's own example
project and the investment it creates. -/
theorem c4_amended_witness :
    ∃ p', findProject
        (createInvestment ⟨[⟨1, "p", 5, "active", 10000, 0, 100, 100, false, 0, 0⟩], []⟩
          0 ⟨2, "investor", none⟩ 1 10000 "credit_card" (.ok ⟨"pi_1", "succeeded"⟩) 7).db
        1 = some p' ∧
      (createInvestment ⟨[⟨1, "p", 5, "active", 10000, 0, 100, 100, false, 0, 0⟩], []⟩
          0 ⟨2, "investor", none⟩ 1 10000 "credit_card"
          (.ok ⟨"pi_1", "succeeded"⟩) 7).db.investments =
        ([] : List Investment) ++
          [⟨7, 2, 1, 10000, "credit_card", some "pi_1", 10000 * (2 / 100), "completed"⟩] ∧
      (completedInvestments (([] : List Investment) ++
          [⟨7, 2, 1, 10000, "credit_card", some "pi_1", 10000 * (2 / 100), "completed"⟩]) 1 ≠ [] →
        p'.fundingRaised = completedTotal (([] : List Investment) ++
          [⟨7, 2, 1, 10000, "credit_card", some "pi_1", 10000 * (2 / 100), "completed"⟩]) 1) ∧
      (completedInvestments (([] : List Investment) ++
          [⟨7, 2, 1, 10000, "credit_card", some "pi_1", 10000 * (2 / 100), "completed"⟩]) 1 = [] →
        p'.fundingRaised = 0) ∧
      (p'.fundingRaised ≥ 10000 → p'.status = "funded") ∧
      (¬ p'.fundingRaised ≥ 10000 → p'.status = "active") :=
  (c4_fundingRaised_recompute_amended
    ⟨[⟨1, "p", 5, "active", 10000, 0, 100, 100, false, 0, 0⟩], []⟩ 0 ⟨2, "investor", none⟩
    1 10000 "credit_card" (.ok ⟨"pi_1", "succeeded"⟩) 7
    ⟨1, "p", 5, "active", 10000, 0, 100, 100, false, 0, 0⟩
    ⟨7, 2, 1, 10000, "credit_card", some "pi_1", 10000 * (2 / 100), "completed"⟩ rfl rfl).1

/-- C5: a successfully created investment has status `completed` exactly
when the gateway reported the synchronous success status `succeeded`;
for `bank_transfer`, `wire` and `crypto` the gateway always reports
`pending`, so the investment is created with the (spec-modelled) default
status `pending`. -/
theorem c5_status_completed_iff_succeeded
    (db : DB) (now : Int) (user : User) (projectId : Nat) (amount : ℚ)
    (paymentMethod : String) (stripe : Except String StripeIntent) (newId : Nat)
    (inv : Investment)
    (hok : (createInvestment db now user projectId amount paymentMethod stripe newId).result
      = .ok inv) :
    (inv.status = "completed" ↔
      ∃ pr, processPayment amount paymentMethod stripe now = .ok pr ∧
        pr.status = "succeeded") ∧
    (paymentMethod = "bank_transfer" ∨ paymentMethod = "wire" ∨ paymentMethod = "crypto" →
      (∃ pr, processPayment amount paymentMethod stripe now = .ok pr ∧
        pr.status = "pending") ∧
      inv.status = "pending") := by
  unfold createInvestment at hok
  split at hok
  next h => exact absurd hok (by simp)
  next project hfind =>
  split at hok
  next h => exact absurd hok (by simp)
  next h1 =>
  split at hok
  next h => exact absurd hok (by simp)
  next h2 =>
  split at hok
  next h => exact absurd hok (by simp)
  next h3 =>
  split at hok
  next h => exact absurd hok (by simp)
  next h4 =>
  split at hok
  next err heq => exact absurd hok (by simp)
  next pr heq =>
  simp only [Except.ok.injEq] at hok
  subst hok
  constructor
  · by_cases hs : pr.status = "succeeded"
    · simp only [hs]
      constructor
      · intro _
        exact ⟨pr, heq, hs⟩
      · intro _
        simp
    · constructor
      · intro hc
        simp only [investmentDefaultStatus] at hc
        rw [if_neg (by simp [hs])] at hc
        exact absurd hc (by decide)
      · rintro ⟨pr', heq', hs'⟩
        rw [heq] at heq'
        cases heq'
        exact absurd hs' hs
  · intro hm
    have hpend : pr.status = "pending" := by
      rcases hm with h | h | h
      · rw [h] at heq
        have hc : processPayment amount "bank_transfer" stripe now =
            .ok ⟨"bank_" ++ toString now, amount * (2 / 100), "pending"⟩ := rfl
        rw [hc] at heq
        cases heq
        rfl
      · rw [h] at heq
        have hc : processPayment amount "wire" stripe now =
            .ok ⟨"wire_" ++ toString now, amount * (2 / 100), "pending"⟩ := rfl
        rw [hc] at heq
        cases heq
        rfl
      · rw [h] at heq
        have hc : processPayment amount "crypto" stripe now =
            .ok ⟨"crypto_" ++ toString now, amount * (2 / 100), "pending"⟩ := rfl
        rw [hc] at heq
        cases heq
        rfl
    refine ⟨⟨pr, heq, hpend⟩, ?_⟩
    simp [hpend, investmentDefaultStatus]

/-- C5 witness: creating a bank-transfer investment on an active project
succeeds, the gateway reports `pending`, and the stored investment's
status is `pending`. -/
theorem c5_witness :
    (∃ pr, processPayment 100 "bank_transfer" (.error "e") 0 = .ok pr ∧
      pr.status = "pending") ∧
    (⟨7, 2, 1, 100, "bank_transfer", some "bank_0", 100 * (2 / 100), "pending"⟩
      : Investment).status = "pending" :=
  (c5_status_completed_iff_succeeded
    ⟨[⟨1, "p", 5, "active", 10000, 0, 100, 10, false, 0, 0⟩], []⟩ 0 ⟨2, "investor", none⟩
    1 100 "bank_transfer" (.error "e") 7
    ⟨7, 2, 1, 100, "bank_transfer", some "bank_0", 100 * (2 / 100), "pending"⟩ rfl).2
    (Or.inl rfl)

/-- C6: when all preconditions pass but the payment-gateway call throws
(`processPayment` returns an error — Stripe failure or unsupported
method), `createInvestment` returns the wrapped payment error, persists
no investment, and leaves the whole database (in particular the project)
unchanged; the single gateway call is the only side effect. -/
theorem c6_gateway_failure_aborts
    (db : DB) (now : Int) (user : User) (projectId : Nat) (amount : ℚ)
    (paymentMethod : String) (stripe : Except String StripeIntent) (newId : Nat)
    (p : Project) (e : ErrorResponse)
    (hp : findProject db projectId = some p)
    (hs : p.status = "active")
    (hd : ¬ now > p.fundingDeadline)
    (hm : ¬ amount < p.minInvestment)
    (ha : ¬ (p.accreditedOnly && !(isAccredited user)) = true)
    (hpay : processPayment amount paymentMethod stripe now = .error e) :
    createInvestment db now user projectId amount paymentMethod stripe newId =
      ⟨.error ⟨"Payment processing failed: " ++ e.message, 400⟩, db,
        [.charge amount paymentMethod]⟩ := by
  unfold createInvestment
  rw [hp]
  simp [hs, hd, hm, ha, hpay]

/-- C6 witness: a credit-card charge whose Stripe call throws surfaces as
the payment error with the database untouched. -/
theorem c6_witness :
    createInvestment ⟨[⟨1, "p", 5, "active", 10000, 0, 100, 10, false, 0, 0⟩], []⟩
        0 ⟨2, "investor", none⟩ 1 100 "credit_card" (.error "card declined") 7 =
      ⟨.error ⟨"Payment processing failed: " ++
          ("Payment failed: " ++ "card declined"), 400⟩,
        ⟨[⟨1, "p", 5, "active", 10000, 0, 100, 10, false, 0, 0⟩], []⟩,
        [.charge 100 "credit_card"]⟩ :=
  c6_gateway_failure_aborts
    ⟨[⟨1, "p", 5, "active", 10000, 0, 100, 10, false, 0, 0⟩], []⟩ 0 ⟨2, "investor", none⟩
    1 100 "credit_card" (.error "card declined") 7
    ⟨1, "p", 5, "active", 10000, 0, 100, 10, false, 0, 0⟩
    ⟨"Payment failed: " ++ "card declined", 400⟩
    rfl rfl (by decide) (by decide) (by decide) rfl

/-- `Math.ceil(N / L)` on naturals: the `(N + L - 1) / L` form used by
`paginateArray` equals the rational ceiling. -/
theorem totalPages_eq_ceil (N L : Nat) (hL : 1 ≤ L) :
    (N + L - 1) / L = Nat.ceil ((N : ℚ) / (L : ℚ)) := by
  have hL0 : 0 < L := hL
  have hLQ : (0 : ℚ) < (L : ℚ) := by exact_mod_cast hL0
  have hdm := Nat.div_add_mod (N + L - 1) L
  have hmod : (N + L - 1) % L < L := Nat.mod_lt _ hL0
  set T := (N + L - 1) / L with hT
  have hNT : N ≤ L * T := by omega
  have hTN : L * T ≤ N + L - 1 := by omega
  apply le_antisymm
  · rcases Nat.eq_zero_or_pos T with h0 | hpos
    · simp [h0]
    · have e2 : L ≤ L * T := Nat.le_mul_of_pos_right L hpos
      have e1 : (T - 1) * L = L * T - L := by
        rw [Nat.sub_mul, one_mul, Nat.mul_comm]
      have h1 : (T - 1) * L < N := by omega
      have h2 : (T - 1) + 1 ≤ Nat.ceil ((N : ℚ) / (L : ℚ)) := by
        rw [Nat.add_one_le_ceil_iff, lt_div_iff₀ hLQ]
        calc ((T - 1 : ℕ) : ℚ) * (L : ℚ) = (((T - 1) * L : ℕ) : ℚ) := by push_cast; ring
          _ < (N : ℚ) := by exact_mod_cast h1
      omega
  · rw [Nat.ceil_le, div_le_iff₀ hLQ]
    calc (N : ℚ) ≤ ((L * T : ℕ) : ℚ) := by exact_mod_cast hNT
      _ = (T : ℚ) * (L : ℚ) := by push_cast; ring

/-- C8: for the query builder with `limit = L ≥ 1` and 1-based `page = p`
over `N` matching documents, `paginateArray`'s `totalPages` is
`ceil(N / L)`; the envelope built by `advancedResults` carries a `next`
descriptor exactly when `p * L < N`, a `prev` descriptor exactly when
`p > 1`, and has shape `{success, count, pagination, data}` with `count`
the number of documents on the current page (the `skip/limit` slice). -/
theorem c8_pagination
    (docs : List Doc) (page limit : Nat) (hL : 1 ≤ limit) (hp : 1 ≤ page) :
    (paginateArray docs page limit).totalPages =
      Nat.ceil ((docs.length : ℚ) / (limit : ℚ)) ∧
    ((advancedResultsEnvelope docs page limit).pagination.next.isSome = true ↔
      page * limit < docs.length) ∧
    ((advancedResultsEnvelope docs page limit).pagination.prev.isSome = true ↔
      1 < page) ∧
    (advancedResultsEnvelope docs page limit).success = true ∧
    (advancedResultsEnvelope docs page limit).count =
      (advancedResultsEnvelope docs page limit).data.length ∧
    (advancedResultsEnvelope docs page limit).data =
      (docs.drop ((page - 1) * limit)).take limit := by
  have hprev : 0 < (page - 1) * limit ↔ 1 < page := by
    rw [Nat.pos_iff_ne_zero, Nat.mul_ne_zero_iff]
    omega
  refine ⟨totalPages_eq_ceil docs.length limit hL, ?_, ?_, rfl, rfl, rfl⟩
  · unfold advancedResultsEnvelope
    dsimp only
    split
    next h => simp [h]
    next h => simp [h]
  · unfold advancedResultsEnvelope
    dsimp only
    split
    next h => simp [hprev.mp h]
    next h =>
      simp only [Option.isSome_none]
      constructor
      · intro hc
        exact absurd hc (by decide)
      · intro hc
        exact absurd (hprev.mpr hc) h

/-- C8 witness: three matching documents with limit 2 on page 1 give two
ceiling pages, a `next` descriptor, no `prev`, and a two-document page. -/
theorem c8_witness :
    (paginateArray (List.replicate 3 ([] : Doc)) 1 2).totalPages =
      Nat.ceil (((List.replicate 3 ([] : Doc)).length : ℚ) / ((2 : Nat) : ℚ)) ∧
    ((advancedResultsEnvelope (List.replicate 3 ([] : Doc)) 1 2).pagination.next.isSome = true ↔
      1 * 2 < (List.replicate 3 ([] : Doc)).length) ∧
    ((advancedResultsEnvelope (List.replicate 3 ([] : Doc)) 1 2).pagination.prev.isSome = true ↔
      1 < 1) ∧
    (advancedResultsEnvelope (List.replicate 3 ([] : Doc)) 1 2).success = true ∧
    (advancedResultsEnvelope (List.replicate 3 ([] : Doc)) 1 2).count =
      (advancedResultsEnvelope (List.replicate 3 ([] : Doc)) 1 2).data.length ∧
    (advancedResultsEnvelope (List.replicate 3 ([] : Doc)) 1 2).data =
      ((List.replicate 3 ([] : Doc)).drop ((1 - 1) * 2)).take 2 :=
  c8_pagination (List.replicate 3 ([] : Doc)) 1 2 (by decide) (by decide)

/-- C9: `protect` passes a request through exactly when a bearer token is
present, verifies against the signing secret, and resolves to an existing
user; a missing token or a failed verification (invalid/expired) yields
the 401 authentication error, while `authorize` yields the distinct 403
authorization error exactly when the authenticated user's role is outside
the allow-list. -/
theorem c9_protect_authorize
    (users : List User) (secret : String) (jwtVerify : String → String → Option Nat)
    (authorization : Option String) (roles : List String) (u : User) :
    (∀ v, protect users secret jwtVerify authorization = .ok v →
      ∃ tok uid, extractToken authorization = some tok ∧
        jwtVerify tok secret = some uid ∧
        users.find? (fun x => x.id == uid) = some v) ∧
    (extractToken authorization = none →
      protect users secret jwtVerify authorization =
        .error ⟨"Not authorized to access this route", 401⟩) ∧
    (∀ tok, extractToken authorization = some tok → jwtVerify tok secret = none →
      protect users secret jwtVerify authorization =
        .error ⟨"Not authorized to access this route", 401⟩) ∧
    (u.role ∈ roles → authorize roles u = .ok ()) ∧
    (u.role ∉ roles → authorize roles u =
      .error ⟨"User role " ++ u.role ++ " is not authorized to access this route", 403⟩) ∧
    ((401 : Nat) ≠ 403) := by
  refine ⟨?_, ?_, ?_, ?_, ?_, by decide⟩
  · intro v hv
    unfold protect at hv
    cases he : extractToken authorization with
    | none =>
      simp only [he] at hv
      simp at hv
    | some tok =>
      simp only [he] at hv
      cases hj : jwtVerify tok secret with
      | none =>
        simp only [hj] at hv
        simp at hv
      | some uid =>
        simp only [hj] at hv
        cases hf : users.find? (fun x => x.id == uid) with
        | none =>
          simp only [hf] at hv
          simp at hv
        | some w =>
          simp only [hf, Except.ok.injEq] at hv
          subst hv
          exact ⟨tok, uid, rfl, hj, hf⟩
  · intro he
    unfold protect
    rw [he]
  · intro tok he hj
    unfold protect
    simp only [he, hj]
  · intro hr
    unfold authorize
    rw [if_pos hr]
  · intro hr
    unfold authorize
    rw [if_neg hr]

/-- C9 witness: a request carrying `Bearer t` against a verifier that
accepts token `t` under secret `s`, resolving to the one stored user. -/
theorem c9_witness :
    ∃ tok uid, extractToken (some "Bearer t") = some tok ∧
      (fun (t s : String) => if t == "t" && s == "s" then some 1 else none) tok "s"
        = some uid ∧
      [(⟨1, "investor", none⟩ : User)].find? (fun x => x.id == uid) =
        some ⟨1, "investor", none⟩ :=
  (c9_protect_authorize [⟨1, "investor", none⟩] "s"
    (fun t s => if t == "t" && s == "s" then some 1 else none)
    (some "Bearer t") ["admin"] ⟨1, "investor", none⟩).1 ⟨1, "investor", none⟩ rfl

/-- C10: a successful single-project fetch increments the stored view
counter by one — a read endpoint mutates persistent state — and changes
nothing else: every other field of the project is unchanged, the
investments collection is unchanged, and every other project document is
carried over as is. -/
theorem c10_getProject_increments_views
    (db : DB) (id : Nat) (p : Project) (hp : findProject db id = some p) :
    ∃ p', (getProject db id).result = .ok p' ∧
      p'.views = p.views + 1 ∧
      p'.id = p.id ∧ p'.title = p.title ∧ p'.owner = p.owner ∧
      p'.status = p.status ∧ p'.fundingGoal = p.fundingGoal ∧
      p'.fundingRaised = p.fundingRaised ∧
      p'.fundingDeadline = p.fundingDeadline ∧
      p'.minInvestment = p.minInvestment ∧
      p'.accreditedOnly = p.accreditedOnly ∧
      p'.favorites = p.favorites ∧
      findProject (getProject db id).db id = some p' ∧
      (getProject db id).db.investments = db.investments ∧
      ∀ q ∈ db.projects, q.id ≠ p.id → q ∈ (getProject db id).db.projects := by
  unfold getProject
  rw [hp]
  refine ⟨{ p with views := p.views + 1 }, rfl, rfl, rfl, rfl, rfl, rfl, rfl, rfl,
    rfl, rfl, rfl, rfl, ?_, rfl, ?_⟩
  · exact find?_map_save db.projects id p _ hp rfl
  · intro q hq hne
    refine List.mem_map.mpr ⟨q, hq, ?_⟩
    rw [if_neg (by simp [hne])]

/-- C10 witness: fetching the single stored project bumps its view count
from 0 to 1 and touches nothing else. -/
theorem c10_witness :
    ∃ p', (getProject ⟨[⟨1, "p", 5, "active", 10000, 0, 100, 10, false, 0, 0⟩], []⟩ 1).result
        = .ok p' ∧
      p'.views = 0 + 1 ∧
      p'.id = 1 ∧ p'.title = "p" ∧ p'.owner = 5 ∧
      p'.status = "active" ∧ p'.fundingGoal = 10000 ∧
      p'.fundingRaised = 0 ∧
      p'.fundingDeadline = 100 ∧
      p'.minInvestment = 10 ∧
      p'.accreditedOnly = false ∧
      p'.favorites = 0 ∧
      findProject (getProject ⟨[⟨1, "p", 5, "active", 10000, 0, 100, 10, false, 0, 0⟩], []⟩ 1).db 1
        = some p' ∧
      (getProject ⟨[⟨1, "p", 5, "active", 10000, 0, 100, 10, false, 0, 0⟩], []⟩ 1).db.investments
        = [] ∧
      ∀ q ∈ [(⟨1, "p", 5, "active", 10000, 0, 100, 10, false, 0, 0⟩ : Project)], q.id ≠ 1 →
        q ∈ (getProject ⟨[⟨1, "p", 5, "active", 10000, 0, 100, 10, false, 0, 0⟩], []⟩ 1).db.projects :=
  c10_getProject_increments_views ⟨[⟨1, "p", 5, "active", 10000, 0, 100, 10, false, 0, 0⟩], []⟩
    1 ⟨1, "p", 5, "active", 10000, 0, 100, 10, false, 0, 0⟩ rfl
